import Mathlib

/-!
Verification development for a RISC-V RV32IM user-mode emulator.

The definitions below are a shallow embedding of the emulator's core:
the register file (`src/emulator/cpu/registers.rs`), the memory bus
(`src/emulator/cpu/memory.rs`), the decoder (`src/emulator/decode.rs`),
fetch (`src/emulator/fetch.rs`) and the execution engine
(`src/emulator/execute.rs`).

Conventions of the embedding:
* `u32` values are `Nat` (kept below `2^32` by explicit `% 2^32` wherever the
  Rust code wraps), `i32` values are `Int`.
* Fallible Rust code (`Result<..>` with `bail!` / `?`) is modelled with the
  `Res` type below; a Rust `panic` (a failed `assert!`, an out-of-bounds slice
  index, `unimplemented!`, `unwrap` on `None`) is the distinct constructor
  `Res.panic`, since a panic aborts the process and is not an `Err`.
* Host interaction (stdin lines, the clock) is supplied through a `HostEnv`
  record; stdout printing is not modelled (the emulator mirrors everything it
  prints into the in-memory `output` string, which is modelled).
-/

/-- Result of running a piece of emulator code: normal value, a recoverable
`anyhow` error (`bail!` / `?`), or a Rust panic. -/
inductive Res (α : Type) where
  | ok (v : α) : Res α
  | err (msg : String) : Res α
  | panic (msg : String) : Res α
deriving Repr, DecidableEq

/-- Error/panic propagation of the Rust `?` operator. -/
def Res.bind {α β : Type} : Res α → (α → Res β) → Res β
  | .ok v, f => f v
  | .err m, _ => .err m
  | .panic m, _ => .panic m

/-- Map over a successful result, propagating errors and panics. -/
def Res.map {α β : Type} (f : α → β) : Res α → Res β
  | .ok v => .ok (f v)
  | .err m => .err m
  | .panic m => .panic m

/-- Interpret a `Nat` below `2^32` as the `i32` with the same bit pattern
(the Rust cast `as i32`). -/
def toI32 (n : Nat) : Int :=
  if n < 2 ^ 31 then (n : Int) else (n : Int) - 2 ^ 32

/-- Truncate an `Int` to the `Nat` holding its low 32 bits
(the Rust cast `as u32`). -/
def toU32 (i : Int) : Nat :=
  (i % 2 ^ 32).toNat

/-- `u32::wrapping_add`. -/
def wrappingAdd (a b : Nat) : Nat :=
  (a + b) % 2 ^ 32

/-- `u32::wrapping_sub`. -/
def wrappingSub (a b : Nat) : Nat :=
  toU32 ((a : Int) - (b : Int))

/-- `u32::wrapping_add_signed`. -/
def wrappingAddSigned (a : Nat) (i : Int) : Nat :=
  toU32 ((a : Int) + i)

/-- Sign-extend the low `bits` bits of `v` (with `v < 2 ^ bits`); this is what
the Rust shift pairs `<< k >> k` on `i32` compute. -/
def signExtend (bits : Nat) (v : Nat) : Int :=
  if v < 2 ^ (bits - 1) then (v : Int) else (v : Int) - 2 ^ bits

/-- `i32::checked_div` (Rust): `None` when the divisor is zero or the division
overflows (`i32::MIN / -1`); otherwise division truncating toward zero. -/
def i32CheckedDiv (a b : Int) : Option Int :=
  if b = 0 ∨ (a = -(2 ^ 31) ∧ b = -1) then none else some (Int.tdiv a b)

/-- `i32::checked_rem` (Rust): `None` when the divisor is zero or the division
overflows (`i32::MIN % -1`); otherwise remainder with the dividend's sign. -/
def i32CheckedRem (a b : Int) : Option Int :=
  if b = 0 ∨ (a = -(2 ^ 31) ∧ b = -1) then none else some (Int.tmod a b)

/-- `u32::checked_div`. -/
def u32CheckedDiv (a b : Nat) : Option Nat :=
  if b = 0 then none else some (a / b)

/-- `u32::checked_rem`. -/
def u32CheckedRem (a b : Nat) : Option Nat :=
  if b = 0 then none else some (a % b)

/-- `RegisterMapping` (registers.rs): a `repr(u8)` enumeration of the 32
register identities; embedded as `Fin 32`, the canonical names below. -/
abbrev RegisterMapping := Fin 32

def RegisterMapping.Zero : RegisterMapping := 0
def RegisterMapping.Ra : RegisterMapping := 1
def RegisterMapping.Sp : RegisterMapping := 2
def RegisterMapping.Gp : RegisterMapping := 3
def RegisterMapping.Tp : RegisterMapping := 4
def RegisterMapping.T0 : RegisterMapping := 5
def RegisterMapping.T1 : RegisterMapping := 6
def RegisterMapping.T2 : RegisterMapping := 7
def RegisterMapping.S0 : RegisterMapping := 8
def RegisterMapping.S1 : RegisterMapping := 9
def RegisterMapping.A0 : RegisterMapping := 10
def RegisterMapping.A1 : RegisterMapping := 11
def RegisterMapping.A2 : RegisterMapping := 12
def RegisterMapping.A3 : RegisterMapping := 13
def RegisterMapping.A4 : RegisterMapping := 14
def RegisterMapping.A5 : RegisterMapping := 15
def RegisterMapping.A6 : RegisterMapping := 16
def RegisterMapping.A7 : RegisterMapping := 17
def RegisterMapping.S2 : RegisterMapping := 18
def RegisterMapping.S3 : RegisterMapping := 19
def RegisterMapping.S4 : RegisterMapping := 20
def RegisterMapping.S5 : RegisterMapping := 21
def RegisterMapping.S6 : RegisterMapping := 22
def RegisterMapping.S7 : RegisterMapping := 23
def RegisterMapping.S8 : RegisterMapping := 24
def RegisterMapping.S9 : RegisterMapping := 25
def RegisterMapping.S10 : RegisterMapping := 26
def RegisterMapping.S11 : RegisterMapping := 27
def RegisterMapping.T3 : RegisterMapping := 28
def RegisterMapping.T4 : RegisterMapping := 29
def RegisterMapping.T5 : RegisterMapping := 30
def RegisterMapping.T6 : RegisterMapping := 31

/-- `RegisterMapping::try_from(u8)`: errors on a value outside `0..32`. -/
def RegisterMapping.try_from (value : Nat) : Res RegisterMapping :=
  if h : value < 32 then .ok ⟨value, h⟩
  else .err ("Invalid register number provided to RegisterMapping::from(u8)")

/-- `RegisterFile32Bit`: 32 registers of 32 bits (registers.rs). -/
structure RegisterFile32Bit where
  registers : Fin 32 → Nat

/-- `RegisterFile32Bit::read` / the `Index` impl: plain array read. -/
def RegisterFile32Bit.read (rf : RegisterFile32Bit) (reg : RegisterMapping) : Nat :=
  rf.registers reg

/-- `RegisterFile32Bit::write`: plain array write, no zero-register guard. -/
def RegisterFile32Bit.write (rf : RegisterFile32Bit) (reg : RegisterMapping) (value : Nat) :
    RegisterFile32Bit :=
  ⟨Function.update rf.registers reg value⟩

/-- The `IndexMut` impl used by `regs[rd] = v` sites in execute.rs: it
`assert!`s that the target is not the zero register (a panic), then writes. -/
def RegisterFile32Bit.indexMut (rf : RegisterFile32Bit) (reg : RegisterMapping) (value : Nat) :
    Res RegisterFile32Bit :=
  if reg = RegisterMapping.Zero then .panic ("Cannot write to the zero register")
  else .ok (rf.write reg value)

/-- `Size` (cpu/mod.rs): width of a memory access. -/
inductive Size where
  | Byte : Size
  | Half : Size
  | Word : Size
deriving Repr, DecidableEq

/-- Bytes moved by an access of the given size (used in claim statements). -/
def Size.bytes : Size → Nat
  | .Byte => 1
  | .Half => 2
  | .Word => 4

/-- memory.rs constants. -/
def TEXT_SIZE : Nat := 0x00400000
def STATIC_DATA_SIZE : Nat := 0x00400000
def STACK_CEILING : Nat := 0x7FFFEFFC
def DRAM_END : Nat := 0x80000000

/-- `MemoryRegion` (memory.rs): a contiguous byte buffer with a base address.
`data` is the boxed byte slice (entries are byte values). -/
structure MemoryRegion where
  base : Nat
  size : Nat
  data : List Nat
deriving Repr, DecidableEq

/-- One Rust slice write `self.data[index] = v`: a panic when the index is
outside the buffer. -/
def MemoryRegion.setByte (r : MemoryRegion) (index v : Nat) : MemoryRegion × Res Unit :=
  if index < r.data.length then ({ r with data := r.data.set index v }, .ok ())
  else (r, .panic ("index out of bounds"))

/-- `MemoryRegion::read8`: panics (slice indexing) when past the buffer. -/
def MemoryRegion.read8 (r : MemoryRegion) (addr : Nat) : Res Nat :=
  let index := addr - r.base
  match r.data[index]? with
  | some b => .ok b
  | none => .panic ("index out of bounds")

/-- `MemoryRegion::read16`, little endian. -/
def MemoryRegion.read16 (r : MemoryRegion) (addr : Nat) : Res Nat :=
  let index := addr - r.base
  match r.data[index]?, r.data[index + 1]? with
  | some b0, some b1 => .ok (b0 ||| (b1 <<< 8))
  | _, _ => .panic ("index out of bounds")

/-- `MemoryRegion::read32`, little endian. -/
def MemoryRegion.read32 (r : MemoryRegion) (addr : Nat) : Res Nat :=
  let index := addr - r.base
  match r.data[index]?, r.data[index + 1]?, r.data[index + 2]?, r.data[index + 3]? with
  | some b0, some b1, some b2, some b3 =>
      .ok (b0 ||| (b1 <<< 8) ||| (b2 <<< 16) ||| (b3 <<< 24))
  | _, _, _, _ => .panic ("index out of bounds")

/-- `MemoryRegion::read`: the source's bounds check is
`addr < base || addr > base + size` — it does not take the access width into
account before dispatching to the raw reads. -/
def MemoryRegion.read (r : MemoryRegion) (addr : Nat) (size : Size) : Res Nat :=
  if addr < r.base ∨ addr > r.base + r.size then .err ("Address is out of bounds")
  else
    match size with
    | .Byte => r.read8 addr
    | .Half => r.read16 addr
    | .Word => r.read32 addr

/-- `MemoryRegion::write8`: stores the low byte. -/
def MemoryRegion.write8 (r : MemoryRegion) (addr val : Nat) : MemoryRegion × Res Unit :=
  r.setByte (addr - r.base) (val &&& 0xff)

/-- `MemoryRegion::write16`, little endian; the second store can panic after
the first one mutated the buffer. -/
def MemoryRegion.write16 (r : MemoryRegion) (addr val : Nat) : MemoryRegion × Res Unit :=
  let index := addr - r.base
  match r.setByte index (val &&& 0xff) with
  | (r1, .ok _) => r1.setByte (index + 1) ((val >>> 8) &&& 0xff)
  | other => other

/-- `MemoryRegion::write32`, little endian. -/
def MemoryRegion.write32 (r : MemoryRegion) (addr val : Nat) : MemoryRegion × Res Unit :=
  let index := addr - r.base
  match r.setByte index (val &&& 0xff) with
  | (r1, .ok _) =>
    match r1.setByte (index + 1) ((val >>> 8) &&& 0xff) with
    | (r2, .ok _) =>
      match r2.setByte (index + 2) ((val >>> 16) &&& 0xff) with
      | (r3, .ok _) => r3.setByte (index + 3) ((val >>> 24) &&& 0xff)
      | other => other
    | other => other
  | other => other

/-- `MemoryRegion::write`: same bounds check as `read`, then dispatch. -/
def MemoryRegion.write (r : MemoryRegion) (addr value : Nat) (size : Size) :
    MemoryRegion × Res Unit :=
  if addr < r.base ∨ addr > r.base + r.size then (r, .err ("Address is out of bounds"))
  else
    match size with
    | .Byte => r.write8 addr value
    | .Half => r.write16 addr value
    | .Word => r.write32 addr value

/-- `MemoryBus` (memory.rs): the text and dram regions. -/
structure MemoryBus where
  dram : MemoryRegion
  text : MemoryRegion
deriving Repr, DecidableEq

def MemoryBus.code_size (bus : MemoryBus) : Nat := bus.text.size

def MemoryBus.entrypoint (bus : MemoryBus) : Nat := bus.text.base

def MemoryBus.dram_start (bus : MemoryBus) : Nat := bus.dram.base

def MemoryBus.dram_size (bus : MemoryBus) : Nat := bus.dram.size

/-- `MemoryBus::read`: dispatch to text when
`entrypoint ≤ addr ≤ entrypoint + code_size`, else to dram when
`dram_start ≤ addr ≤ DRAM_END`, else an out-of-bounds error. -/
def MemoryBus.read (bus : MemoryBus) (addr : Nat) (size : Size) : Res Nat :=
  if bus.entrypoint ≤ addr ∧ addr ≤ bus.entrypoint + bus.code_size then
    bus.text.read addr size
  else if bus.dram_start ≤ addr ∧ addr ≤ DRAM_END then
    bus.dram.read addr size
  else .err ("Unkown or Out-Of-Bounds memory region addressed")

/-- `MemoryBus::write`: a write whose address falls in the text range is
rejected before anything is mutated; dram writes dispatch to the region. -/
def MemoryBus.write (bus : MemoryBus) (addr value : Nat) (size : Size) :
    MemoryBus × Res Unit :=
  if bus.entrypoint ≤ addr ∧ addr ≤ bus.entrypoint + bus.code_size then
    (bus, .err ("Self modifying code is not supported"))
  else if bus.dram_start ≤ addr ∧ addr ≤ DRAM_END then
    let (d, res) := bus.dram.write addr value size
    ({ bus with dram := d }, res)
  else (bus, .err ("Unkown memory region addressed"))

/-- `MemoryRegion::new`: a zero-filled buffer of `size` bytes. -/
def MemoryRegion.new (base size : Nat) : MemoryRegion :=
  ⟨base, size, List.replicate size 0⟩

/-- `MemoryRegion::initialize`: asserts the data fits (panic otherwise) and
copies it to the front of the buffer. -/
def MemoryRegion.initData (r : MemoryRegion) (data : List Nat) : Res MemoryRegion :=
  if data.length ≤ r.size then
    .ok ⟨r.base, r.size, data ++ List.replicate (r.size - data.length) 0⟩
  else .panic ("Data is too large for the memory region")

/-- `MemoryBus::new`: text at the entrypoint holding the code plus 4 spare
bytes; dram from `entrypoint + len(code) + 0x1000` up to `DRAM_END` holding
the static data. (The region sizes cannot wrap for real programs, so plain
`Nat` arithmetic is used for them.) -/
def MemoryBus.new (entrypoint : Nat) (code data : List Nat) : Res MemoryBus :=
  let dramStart := (entrypoint + code.length + 0x1000) % 2 ^ 32
  Res.bind ((MemoryRegion.new dramStart (DRAM_END - dramStart)).initData data) (fun dram =>
    Res.bind ((MemoryRegion.new entrypoint (code.length + 4)).initData code) (fun text =>
      .ok { dram := dram, text := text }))

/-- `RTypeOperation` (operations.rs). -/
inductive RTypeOperation where
  | Add | And | Or | Sll | Slt | Sltu | Sra | Srl | Sub | Xor
  | Mul | Mulh | Mulhu | Mulhsu | Div | Divu | Rem | Remu
deriving Repr, DecidableEq

/-- `ITypeOperation` (operations.rs). -/
inductive ITypeOperation where
  | Addi | Andi | Jalr | Lb | Lh | Lw | Ori | Slli | Slti | Sltiu
  | Srai | Srli | Xori | Lbu | Lhu | Fence | FenceI | Ecall | Ebreak
deriving Repr, DecidableEq

/-- `STypeOperation` (operations.rs). -/
inductive STypeOperation where
  | Sb | Sh | Sw
deriving Repr, DecidableEq

/-- `SBTypeOperation` (operations.rs). -/
inductive SBTypeOperation where
  | Beq | Bge | Blt | Bne | Bltu | Bgeu
deriving Repr, DecidableEq

/-- `UJTypeOperation` (operations.rs). -/
inductive UJTypeOperation where
  | Jal
deriving Repr, DecidableEq

/-- `UTypeOperation` (operations.rs). -/
inductive UTypeOperation where
  | Lui | Auipc
deriving Repr, DecidableEq

/-- `Rv32imInstruction` (instruction_set_definition/mod.rs): the six
instruction shapes, fields in source order. -/
inductive Rv32imInstruction where
  | RType (operation : RTypeOperation) (rd : RegisterMapping) (funct3 : Nat)
      (rs1 rs2 : RegisterMapping) (funct7 : Nat)
  | IType (operation : ITypeOperation) (rd : RegisterMapping) (funct3 : Nat)
      (rs1 : RegisterMapping) (imm : Int)
  | SType (operation : STypeOperation) (funct3 : Nat)
      (rs1 rs2 : RegisterMapping) (imm : Int)
  | SBType (operation : SBTypeOperation) (funct3 : Nat)
      (rs1 rs2 : RegisterMapping) (imm : Int)
  | UJType (operation : UJTypeOperation) (rd : RegisterMapping) (imm : Nat)
  | UType (operation : UTypeOperation) (rd : RegisterMapping) (imm : Nat)
deriving Repr, DecidableEq

/-- The R-type dispatch table of `from_machine_code` keyed on
`(opcode, funct3, funct7)`. -/
def rtypeOperationOf (opcode funct3 funct7 : Nat) : Option RTypeOperation :=
  match opcode, funct3, funct7 with
  | 0b0110011, 0b000, 0b0000000 => some .Add
  | 0b0110011, 0b000, 0b0100000 => some .Sub
  | 0b0110011, 0b001, 0b0000000 => some .Sll
  | 0b0110011, 0b010, 0b0000000 => some .Slt
  | 0b0110011, 0b011, 0b0000000 => some .Sltu
  | 0b0110011, 0b100, 0b0000000 => some .Xor
  | 0b0110011, 0b101, 0b0000000 => some .Srl
  | 0b0110011, 0b101, 0b0100000 => some .Sra
  | 0b0110011, 0b110, 0b0000000 => some .Or
  | 0b0110011, 0b111, 0b0000000 => some .And
  | 0b0110011, 0b000, 0b0000001 => some .Mul
  | 0b0110011, 0b001, 0b0000001 => some .Mulh
  | 0b0110011, 0b010, 0b0000001 => some .Mulhsu
  | 0b0110011, 0b011, 0b0000001 => some .Mulhu
  | 0b0110011, 0b100, 0b0000001 => some .Div
  | 0b0110011, 0b101, 0b0000001 => some .Divu
  | 0b0110011, 0b110, 0b0000001 => some .Rem
  | 0b0110011, 0b111, 0b0000001 => some .Remu
  | _, _, _ => none

/-- The I-type dispatch of `from_machine_code` keyed on
`(opcode, funct3, imm)`; returns the operation together with the (possibly
shift-masked) raw 12-bit immediate, exactly as the source mutates `imm` in
the guarded `slli`/`srli`/`srai` arms. -/
def itypeOperationOf (opcode funct3 imm : Nat) : Option (ITypeOperation × Nat) :=
  match opcode, funct3 with
  | 0b0000011, 0b000 => some (.Lb, imm)
  | 0b0000011, 0b001 => some (.Lh, imm)
  | 0b0000011, 0b010 => some (.Lw, imm)
  | 0b0000011, 0b100 => some (.Lbu, imm)
  | 0b0000011, 0b101 => some (.Lhu, imm)
  | 0b0001111, 0b000 => some (.Fence, imm)
  | 0b0001111, 0b001 => some (.FenceI, imm)
  | 0b0010011, 0b000 => some (.Addi, imm)
  | 0b0010011, 0b111 => some (.Andi, imm)
  | 0b0010011, 0b110 => some (.Ori, imm)
  | 0b0010011, 0b001 =>
    if imm >>> 5 = 0b0000000 then some (.Slli, imm &&& 0b11111) else none
  | 0b0010011, 0b101 =>
    if imm >>> 5 = 0b0000000 then some (.Srli, imm &&& 0b11111)
    else if imm >>> 5 = 0b0100000 then some (.Srai, imm &&& 0b11111)
    else none
  | 0b0010011, 0b010 => some (.Slti, imm)
  | 0b0010011, 0b011 => some (.Sltiu, imm)
  | 0b0010011, 0b100 => some (.Xori, imm)
  | 0b1100111, 0b000 => some (.Jalr, imm)
  | 0b1110011, 0b000 =>
    if imm = 0 then some (.Ecall, imm)
    else if imm = 1 then some (.Ebreak, imm)
    else none
  | _, _ => none

/-- The SB-type dispatch of `from_machine_code` keyed on `funct3`. -/
def sbtypeOperationOf (funct3 : Nat) : Option SBTypeOperation :=
  match funct3 with
  | 0b000 => some .Beq
  | 0b001 => some .Bne
  | 0b100 => some .Blt
  | 0b101 => some .Bge
  | 0b110 => some .Bltu
  | 0b111 => some .Bgeu
  | _ => none

/-- `Rv32imInstruction::from_machine_code` (decode.rs): decode one 32-bit
word. Field extraction follows the source bit for bit; the source's
arithmetic-shift sign-extension pairs (`<< k >> k` on `i32`) are written as
`signExtend` of the assembled raw field, which computes the same value. -/
def from_machine_code (machine_code : Nat) : Res Rv32imInstruction :=
  let opcode := machine_code &&& 0b1111111
  let rdRes := RegisterMapping.try_from ((machine_code >>> 7) &&& 0b11111)
  let rs1Res := RegisterMapping.try_from ((machine_code >>> 15) &&& 0b11111)
  let rs2Res := RegisterMapping.try_from ((machine_code >>> 20) &&& 0b11111)
  let funct3 := (machine_code >>> 12) &&& 0b111
  match opcode with
  | 0b0110011 | 0b0111011 =>
    let funct7 := (machine_code >>> 25) &&& 0b1111111
    match rtypeOperationOf opcode funct3 funct7 with
    | none => .err ("Unknown R-type instruction")
    | some operation =>
      rdRes.bind (fun rd => rs1Res.bind (fun rs1 => rs2Res.bind (fun rs2 =>
        .ok (.RType operation rd funct3 rs1 rs2 funct7))))
  | 0b0000011 | 0b0001111 | 0b0010011 | 0b0011011 | 0b1100111 | 0b1110011 =>
    let imm0 := (machine_code >>> 20) &&& 0xFFF
    match itypeOperationOf opcode funct3 imm0 with
    | none => .err ("Unknown I-type instruction")
    | some (operation, imm1) =>
      -- decode.rs:162: every operation except sltiu gets `imm << 20 >> 20`
      let imm : Int :=
        if operation = ITypeOperation.Sltiu then (imm1 : Int) else signExtend 12 imm1
      rdRes.bind (fun rd => rs1Res.bind (fun rs1 =>
        .ok (.IType operation rd funct3 rs1 imm)))
  | 0b0100011 =>
    let imm12 := ((machine_code >>> 7) &&& 0b11111) ||| ((machine_code >>> 20) &&& 0b111111100000)
    let imm : Int := signExtend 12 imm12
    match funct3 with
    | 0b000 => rs1Res.bind (fun rs1 => rs2Res.bind (fun rs2 =>
        .ok (.SType .Sb funct3 rs1 rs2 imm)))
    | 0b001 => rs1Res.bind (fun rs1 => rs2Res.bind (fun rs2 =>
        .ok (.SType .Sh funct3 rs1 rs2 imm)))
    | 0b010 => rs1Res.bind (fun rs1 => rs2Res.bind (fun rs2 =>
        .ok (.SType .Sw funct3 rs1 rs2 imm)))
    | _ => .err ("Unknown S-type instruction")
  | 0b1100011 =>
    let imm13 := (((machine_code >>> 31) &&& 0b1) <<< 12)
      ||| ((machine_code <<< 4) &&& 0b100000000000)
      ||| ((machine_code >>> 20) &&& 0b11111100000)
      ||| ((machine_code >>> 7) &&& 0b11110)
    let imm : Int := signExtend 13 imm13
    match sbtypeOperationOf funct3 with
    | none => .err ("Unknown SB-type instruction")
    | some operation =>
      rs1Res.bind (fun rs1 => rs2Res.bind (fun rs2 =>
        .ok (.SBType operation funct3 rs1 rs2 imm)))
  | 0b1101111 =>
    -- decode.rs:236-239: plain (logical) u32 shifts; the 21-bit immediate is
    -- assembled but NOT sign-extended here.
    let imm := ((machine_code >>> 11) &&& 0b100000000000000000000)
      ||| (machine_code &&& 0b11111111000000000000)
      ||| ((machine_code >>> 9) &&& 0b100000000000)
      ||| ((machine_code >>> 20) &&& 0b11111111110)
    rdRes.bind (fun rd => .ok (.UJType .Jal rd imm))
  | 0b0010111 | 0b0110111 =>
    -- decode.rs:251: `(((mc & 0xFFFF_F000) as i32) >> 12) as u32`
    let imm := if machine_code.testBit 31
      then (machine_code >>> 12) ||| 0xFFF00000
      else machine_code >>> 12
    let operationRes : Res UTypeOperation :=
      match opcode with
      | 0b0110111 => .ok .Lui
      | 0b0010111 => .ok .Auipc
      | _ => .err ("Unknown U-type instruction")
    operationRes.bind (fun operation => rdRes.bind (fun rd =>
      .ok (.UType operation rd imm)))
  | _ => .err ("Unknown OpCode")

/-- `fetch_and_decode` (fetch.rs): reject a PC whose wrapping distance from
the entrypoint reaches `code_size`, then read a word through the bus and
decode it. No alignment check is performed anywhere on this path. -/
def fetch_and_decode (bus : MemoryBus) (pc : Nat) : Res Rv32imInstruction :=
  if wrappingSub pc bus.entrypoint ≥ bus.code_size then
    .err ("Program counter out of bounds")
  else
    (bus.read pc Size.Word).bind from_machine_code

/-- Host-side inputs consumed by syscalls: the line delivered by the next
`stdin.read_line` and the current clock in milliseconds. Host I/O itself is
assumed to succeed (its failure would just surface as one more `Err`). -/
structure HostEnv where
  stdinLine : String
  timeMillis : Nat

/-- `str::parse::<i32>` on an already-trimmed string: optional sign, at least
one digit, nothing else, value within the `i32` range. -/
def parseI32 (s : String) : Option Int :=
  let cs := s.data
  let signed : Int × List Char :=
    match cs with
    | c :: rest => if c.toNat = 45 then (-1, rest) else if c.toNat = 43 then (1, rest) else (1, cs)
    | [] => (1, cs)
  let sign := signed.1
  let ds := signed.2
  if ds.isEmpty ∨ ¬ (ds.all Char.isDigit) then none
  else
    let n : Nat := ds.foldl (fun acc c => acc * 10 + (c.toNat - 48)) 0
    let v : Int := sign * n
    if v < -(2 ^ 31) ∨ v > 2 ^ 31 - 1 then none else some v

/-- The `Syscall` enumeration (execute.rs). -/
inductive Syscall where
  | PrintInt | PrintString | ReadInt | ReadString | Exit | PrintChar | ReadChar
  | Time | Sleep | PrintIntHex | PrintIntBinary | PrintIntUnsigned | Exit2
  | UnSupported
deriving Repr, DecidableEq

/-- `impl From<u32> for Syscall`. -/
def Syscall.from_u32 (value : Nat) : Syscall :=
  match value with
  | 1 => .PrintInt
  | 4 => .PrintString
  | 5 => .ReadInt
  | 8 => .ReadString
  | 10 => .Exit
  | 11 => .PrintChar
  | 12 => .ReadChar
  | 30 => .Time
  | 32 => .Sleep
  | 34 => .PrintIntHex
  | 35 => .PrintIntBinary
  | 36 => .PrintIntUnsigned
  | 93 => .Exit2
  | _ => .UnSupported

/-- The `print_string` syscall loop: read bytes until a NUL, collecting the
characters. The fuel argument only bounds the iteration count for
termination; starting from `2 ^ 32` it cannot run out, because the address
wraps and every real bus has a failing or NUL-holding address. -/
def printStringLoop : Nat → MemoryBus → Nat → Res String
  | 0, _, _ => .err ("print_string loop did not terminate")
  | fuel + 1, memory, addr =>
    match memory.read addr Size.Byte with
    | .ok byte =>
      if byte = 0 then .ok ("")
      else
        (printStringLoop fuel memory ((addr + 1) % 2 ^ 32)).map
          (fun s => String.mk [Char.ofNat (byte &&& 0xff)] ++ s)
    | .err m => .err m
    | .panic m => .panic m

/-- The `read_string` syscall loop: copy input bytes to memory while
`i < lim`, returning the updated bus and the next index `i`. -/
def readStringLoop (bytes : List Nat) (memory : MemoryBus) (addr i lim : Nat) :
    Res (MemoryBus × Nat) :=
  match bytes with
  | [] => .ok (memory, i)
  | byte :: rest =>
    if i ≥ lim then .ok (memory, i)
    else
      match memory.write ((addr + i) % 2 ^ 32) byte Size.Byte with
      | (m, .ok _) => readStringLoop rest m addr (i + 1) lim
      | (_, .err m) => .err m
      | (_, .panic m) => .panic m

/-- `{:#x}` formatting of a `u32` (lowercase hex with a `0x` prefix). -/
def formatHex (n : Nat) : String :=
  "0x" ++ String.mk (Nat.toDigits 16 n)

/-- `{:#b}` formatting of a `u32`. -/
def formatBinary (n : Nat) : String :=
  "0b" ++ String.mk (Nat.toDigits 2 n)

/-- `process_ecall` (execute.rs): dispatch on `a7`. Stdout printing is
mirrored into `output`, which is what the model records. -/
def process_ecall (env : HostEnv) (regs : RegisterFile32Bit) (memory : MemoryBus)
    (output : String) : Res (RegisterFile32Bit × MemoryBus × String) :=
  match Syscall.from_u32 (regs.read RegisterMapping.A7) with
  | .PrintInt =>
    -- execute.rs:344: `regs[A0].to_string()` renders the raw u32 value
    .ok (regs, memory, output ++ toString (regs.read RegisterMapping.A0))
  | .PrintString =>
    (printStringLoop (2 ^ 32) memory (regs.read RegisterMapping.A0)).bind
      (fun s => .ok (regs, memory, output ++ s))
  | .ReadInt =>
    match parseI32 env.stdinLine.trim with
    | none => .err ("invalid integer input")
    | some value =>
      (regs.indexMut RegisterMapping.A0 (toU32 value)).map (fun r => (r, memory, output))
  | .ReadString =>
    let addr := regs.read RegisterMapping.A0
    let maxLen := regs.read RegisterMapping.A1
    -- `i >= max_len - 1` on usize; with max_len = 0 the subtraction wraps
    -- (release-profile semantics), so the bound is huge
    let lim := if maxLen = 0 then 2 ^ 64 - 1 else maxLen - 1
    (readStringLoop (env.stdinLine.toUTF8.toList.map UInt8.toNat) memory addr 0 lim).bind
      (fun p =>
        match p.1.write ((addr + p.2) % 2 ^ 32) 0 Size.Byte with
        | (m, .ok _) => .ok (regs, m, output)
        | (_, .err m) => .err m
        | (_, .panic m) => .panic m)
  | .Exit => .err ("Program exited with code: 0")
  | .PrintChar =>
    .ok (regs, memory, output ++ String.mk [Char.ofNat (regs.read RegisterMapping.A0 &&& 0xff)])
  | .ReadChar =>
    match env.stdinLine.trim.data with
    | [] => .panic ("called unwrap on a None value")
    | c :: _ =>
      (regs.indexMut RegisterMapping.A0 (c.toNat % 256)).map (fun r => (r, memory, output))
  | .Time =>
    (regs.indexMut RegisterMapping.A0 (env.timeMillis % 2 ^ 32)).bind (fun r1 =>
      (r1.indexMut RegisterMapping.A1 ((env.timeMillis >>> 32) % 2 ^ 32)).map
        (fun r2 => (r2, memory, output)))
  | .Sleep => .ok (regs, memory, output)
  | .PrintIntHex =>
    .ok (regs, memory, output ++ formatHex (regs.read RegisterMapping.A0))
  | .PrintIntBinary =>
    .ok (regs, memory, output ++ formatBinary (regs.read RegisterMapping.A0))
  | .PrintIntUnsigned =>
    .ok (regs, memory, output ++ toString (regs.read RegisterMapping.A0))
  | .Exit2 =>
    .err ("Program exited with code: " ++ toString (regs.read RegisterMapping.A0))
  | .UnSupported =>
    .err ("Unsupported syscall number: " ++ toString (regs.read RegisterMapping.A7))

/-- `Cpu32Bit` (cpu/mod.rs). -/
structure Cpu32Bit where
  registers : RegisterFile32Bit
  pc : Nat
  memory : MemoryBus
  debug : Bool
  output : String

/-- `execute_rtype_instruction` (execute.rs): every arm stores through the
asserting `IndexMut` site `regs[rd] = ..`. -/
def execute_rtype_instruction (regs : RegisterFile32Bit) (operation : RTypeOperation)
    (rd rs1 rs2 : RegisterMapping) : Res RegisterFile32Bit :=
  let a := regs.read rs1
  let b := regs.read rs2
  match operation with
  | .Add => regs.indexMut rd (wrappingAdd a b)
  | .And => regs.indexMut rd (a &&& b)
  | .Or => regs.indexMut rd (a ||| b)
  | .Sll => regs.indexMut rd ((a <<< (b &&& 0b11111)) % 2 ^ 32)
  | .Slt => regs.indexMut rd (if toI32 a < toI32 b then 1 else 0)
  | .Sltu => regs.indexMut rd (if a < b then 1 else 0)
  | .Sra => regs.indexMut rd (toU32 (Int.fdiv (toI32 a) (2 ^ (b &&& 0b11111))))
  | .Srl => regs.indexMut rd (a >>> (b &&& 0b11111))
  | .Sub => regs.indexMut rd (wrappingSub a b)
  | .Xor => regs.indexMut rd (a ^^^ b)
  | .Mul => regs.indexMut rd ((a * b) % 2 ^ 32)
  | .Mulh =>
    -- `((a as i32 as i64 * b as i32 as i64) as u64 >> 32) as u32`
    regs.indexMut rd ((((toI32 a * toI32 b) % 2 ^ 64).toNat >>> 32) % 2 ^ 32)
  | .Mulhu => regs.indexMut rd (((a * b) >>> 32) % 2 ^ 32)
  | .Mulhsu =>
    -- `(a as i32 as i64 * b as i64)`: rs2 is zero-extended to i64
    regs.indexMut rd ((((toI32 a * (b : Int)) % 2 ^ 64).toNat >>> 32) % 2 ^ 32)
  | .Div =>
    match i32CheckedDiv (toI32 a) (toI32 b) with
    | none => .err ("Division by zero")
    | some q => regs.indexMut rd (toU32 q)
  | .Divu =>
    match u32CheckedDiv a b with
    | none => .err ("Division by zero")
    | some q => regs.indexMut rd q
  | .Rem =>
    match i32CheckedRem (toI32 a) (toI32 b) with
    | none => .err ("Division by zero")
    | some q => regs.indexMut rd (toU32 q)
  | .Remu =>
    match u32CheckedRem a b with
    | none => .err ("Division by zero")
    | some q => regs.indexMut rd q

/-- `execute_stype_instruction` (execute.rs): compute the address with
`wrapping_add_signed` and store the low bits of `rs2` through the bus. -/
def execute_stype_instruction (regs : RegisterFile32Bit) (memory : MemoryBus)
    (operation : STypeOperation) (rs1 rs2 : RegisterMapping) (offset : Int) :
    Res MemoryBus :=
  let addr := wrappingAddSigned (regs.read rs1) offset
  let size := match operation with
    | .Sb => Size.Byte
    | .Sh => Size.Half
    | .Sw => Size.Word
  match memory.write addr (regs.read rs2) size with
  | (m, .ok _) => .ok m
  | (_, .err msg) => .err msg
  | (_, .panic msg) => .panic msg

/-- `execute_sbtype_instruction` (execute.rs): a taken branch sets
`pc = pc.wrapping_add_signed(offset - 4)` (the caller adds back the 4). -/
def execute_sbtype_instruction (pc : Nat) (regs : RegisterFile32Bit)
    (operation : SBTypeOperation) (rs1 rs2 : RegisterMapping) (offset : Int) : Nat :=
  let a := regs.read rs1
  let b := regs.read rs2
  let taken : Bool :=
    match operation with
    | .Beq => a = b
    | .Bge => toI32 b ≤ toI32 a
    | .Blt => toI32 a < toI32 b
    | .Bne => a ≠ b
    | .Bltu => a < b
    | .Bgeu => b ≤ a
  if taken then wrappingAddSigned pc (offset - 4) else pc

/-- `execute_ujtype_instruction` (execute.rs): `jal` links `pc + 4` into `rd`
(explicitly skipped for the zero register) and then applies
`pc.wrapping_add_signed(((offset as i32) << 12) >> 12)` — an arithmetic
shift pair that sign-extends the LOW 20 BITS of the stored immediate,
discarding its bit 20. -/
def execute_ujtype_instruction (pc : Nat) (regs : RegisterFile32Bit)
    (operation : UJTypeOperation) (rd : RegisterMapping) (offset : Nat) :
    Nat × RegisterFile32Bit :=
  match operation with
  | .Jal =>
    let regs' := if rd ≠ RegisterMapping.Zero then regs.write rd ((pc + 4) % 2 ^ 32) else regs
    (wrappingAddSigned pc (signExtend 20 (offset % 2 ^ 20)), regs')

/-- `execute_utype_instruction` (execute.rs). -/
def execute_utype_instruction (pc : Nat) (registers : RegisterFile32Bit)
    (operation : UTypeOperation) (rd : RegisterMapping) (imm : Nat) :
    Res RegisterFile32Bit :=
  match operation with
  | .Lui => registers.indexMut rd ((imm <<< 12) % 2 ^ 32)
  | .Auipc => registers.indexMut rd (wrappingAdd pc ((imm <<< 12) % 2 ^ 32))

/-- `execute_itype_instruction` (execute.rs). The `fence`/`fence.i` arms hit
`unimplemented!` — a panic. -/
def execute_itype_instruction (env : HostEnv) (cpu : Cpu32Bit)
    (operation : ITypeOperation) (rd rs1 : RegisterMapping) (imm : Int) :
    Res Cpu32Bit :=
  let regs := cpu.registers
  let withRegs := fun (r : Res RegisterFile32Bit) =>
    r.map (fun regs' => { cpu with registers := regs' })
  match operation with
  | .Addi => withRegs (regs.indexMut rd (wrappingAdd (regs.read rs1) (toU32 imm)))
  | .Andi => withRegs (regs.indexMut rd (regs.read rs1 &&& toU32 imm))
  | .Jalr =>
    let t := (cpu.pc + 4) % 2 ^ 32
    let pc' := wrappingAdd (regs.read rs1) (toU32 imm) &&& 0xFFFFFFFE
    let regs' := if rd ≠ RegisterMapping.Zero then regs.write rd t else regs
    .ok { cpu with pc := pc', registers := regs' }
  | .Lb =>
    (cpu.memory.read (wrappingAddSigned (regs.read rs1) imm) Size.Byte).bind
      (fun v => withRegs (regs.indexMut rd (toU32 (signExtend 8 (v % 2 ^ 8)))))
  | .Lh =>
    (cpu.memory.read (wrappingAddSigned (regs.read rs1) imm) Size.Half).bind
      (fun v => withRegs (regs.indexMut rd (toU32 (signExtend 16 (v % 2 ^ 16)))))
  | .Lw =>
    (cpu.memory.read (wrappingAddSigned (regs.read rs1) imm) Size.Word).bind
      (fun v => withRegs (regs.indexMut rd v))
  | .Ori => withRegs (regs.indexMut rd (regs.read rs1 ||| toU32 imm))
  | .Slli => withRegs (regs.indexMut rd ((regs.read rs1 <<< (toU32 imm &&& 0b11111)) % 2 ^ 32))
  | .Slti => withRegs (regs.indexMut rd (if toI32 (regs.read rs1) < imm then 1 else 0))
  | .Sltiu => withRegs (regs.indexMut rd (if regs.read rs1 < toU32 imm then 1 else 0))
  | .Srai =>
    withRegs (regs.indexMut rd (toU32 (Int.fdiv (toI32 (regs.read rs1)) (2 ^ (toU32 imm &&& 0b11111)))))
  | .Srli => withRegs (regs.indexMut rd (regs.read rs1 >>> (toU32 imm &&& 0b11111)))
  | .Xori => withRegs (regs.indexMut rd (regs.read rs1 ^^^ toU32 imm))
  | .Lbu =>
    (cpu.memory.read (wrappingAddSigned (regs.read rs1) imm) Size.Byte).bind
      (fun v => withRegs (regs.indexMut rd v))
  | .Lhu =>
    (cpu.memory.read (wrappingAddSigned (regs.read rs1) imm) Size.Half).bind
      (fun v => withRegs (regs.indexMut rd v))
  | .Fence => .panic ("not implemented: fence instruction not implemented")
  | .FenceI => .panic ("not implemented: fence.i instruction not implemented")
  | .Ecall =>
    (process_ecall env regs cpu.memory cpu.output).map
      (fun p => { cpu with registers := p.1, memory := p.2.1, output := p.2.2 })
  | .Ebreak => .ok { cpu with debug := true }

/-- `Cpu32Bit::execute` (execute.rs): dispatch on the instruction shape, then
advance the PC by 4 unless the handler already set it (`jalr`, `jal`). -/
def Cpu32Bit.execute (env : HostEnv) (cpu : Cpu32Bit) (instruction : Rv32imInstruction) :
    Res Cpu32Bit :=
  match instruction with
  | .IType operation rd _funct3 rs1 imm =>
    (execute_itype_instruction env cpu operation rd rs1 imm).bind (fun c =>
      if operation = ITypeOperation.Jalr then .ok c
      else .ok { c with pc := (c.pc + 4) % 2 ^ 32 })
  | .RType operation rd _funct3 rs1 rs2 _funct7 =>
    (execute_rtype_instruction cpu.registers operation rd rs1 rs2).map
      (fun regs' => { cpu with registers := regs', pc := (cpu.pc + 4) % 2 ^ 32 })
  | .SType operation _funct3 rs1 rs2 imm =>
    (execute_stype_instruction cpu.registers cpu.memory operation rs1 rs2 imm).map
      (fun m => { cpu with memory := m, pc := (cpu.pc + 4) % 2 ^ 32 })
  | .SBType operation _funct3 rs1 rs2 imm =>
    let pc' := execute_sbtype_instruction cpu.pc cpu.registers operation rs1 rs2 imm
    .ok { cpu with pc := (pc' + 4) % 2 ^ 32 }
  | .UJType operation rd imm =>
    let p := execute_ujtype_instruction cpu.pc cpu.registers operation rd imm
    .ok { cpu with pc := p.1, registers := p.2 }
  | .UType operation rd imm =>
    (execute_utype_instruction cpu.pc cpu.registers operation rd imm).map
      (fun regs' => { cpu with registers := regs', pc := (cpu.pc + 4) % 2 ^ 32 })

/-- A quiet host: empty stdin line, clock at zero. -/
def env0 : HostEnv := ⟨"", 0⟩

/-- A small concrete bus used as a test fixture: 8 code bytes (plus the 4
spare bytes `MemoryBus::new` adds) at entrypoint `0x400000`; the byte at
offset 1 starts the little-endian word `0x00000013`. -/
def bus0 : MemoryBus :=
  { text := ⟨0x400000, 12, [0x00, 0x13, 0, 0, 0, 0, 0, 0, 0, 0, 0, 0]⟩,
    dram := ⟨0x10000000, 16, List.replicate 16 0⟩ }

/-- All registers zero. -/
def zeroRegs : RegisterFile32Bit := ⟨fun _ => 0⟩

/-- A freshly loaded CPU fixture at `pc = 0x400000`. -/
def cpu0 : Cpu32Bit :=
  { registers := zeroRegs, pc := 0x400000, memory := bus0, debug := false, output := "" }

/-- Register file fixture for the `print_int` syscall: `a7 = 1`,
`a0 = 0xFFFFFFFF` (the `u32` bit pattern of `-1i32`). -/
def regsC2 : RegisterFile32Bit :=
  ⟨fun r => if r = RegisterMapping.A7 then 1
    else if r = RegisterMapping.A0 then 0xFFFFFFFF else 0⟩

/-- Register file fixture holding `i32::MIN` in `a0` and `-1` in `a1`. -/
def regsC3 : RegisterFile32Bit :=
  ⟨fun r => if r = RegisterMapping.A0 then 0x80000000
    else if r = RegisterMapping.A1 then 0xFFFFFFFF else 0⟩

/-- Register file fixture for a well-defined division: `a0 = 7`, `a1 = 2`. -/
def regsC3w : RegisterFile32Bit :=
  ⟨fun r => if r = RegisterMapping.A0 then 7
    else if r = RegisterMapping.A1 then 2 else 0⟩

/-- A 4-byte region based at 0, for the bounds-check claim. -/
def regionC5 : MemoryRegion := ⟨0, 4, [0, 0, 0, 0]⟩

/-- CPU fixture with `a1 = 0x1000`, for the `sltiu` claim. -/
def cpuC7 : Cpu32Bit :=
  { registers := ⟨fun r => if r = RegisterMapping.A1 then 0x1000 else 0⟩,
    pc := 0x400000, memory := bus0, debug := false, output := "" }

/-- A branch instruction fixture (`beq x0, x0, +8`, always taken). -/
def instrC1w : Rv32imInstruction :=
  .SBType .Beq 0 RegisterMapping.Zero RegisterMapping.Zero 8

/-- The CPU `cpu0` reaches after executing `instrC1w`. -/
def cpuC1w : Cpu32Bit :=
  { registers := zeroRegs, pc := 0x400008, memory := bus0, debug := false, output := "" }

theorem Res.map_eq_ok_iff {α β : Type} {f : α → β} {r : Res α} {b : β} :
    r.map f = .ok b ↔ ∃ a, r = .ok a ∧ b = f a := by
  cases r <;> simp [Res.map, eq_comm]

theorem Res.bind_eq_ok_iff {α β : Type} {f : α → Res β} {r : Res α} {b : β} :
    r.bind f = .ok b ↔ ∃ a, r = .ok a ∧ f a = .ok b := by
  cases r <;> simp [Res.bind]

theorem RegisterFile32Bit.read_write_same (rf : RegisterFile32Bit) (reg : RegisterMapping)
    (v : Nat) : (rf.write reg v).read reg = v := by
  simp [RegisterFile32Bit.write, RegisterFile32Bit.read]

theorem RegisterFile32Bit.read_write_ne (rf : RegisterFile32Bit) {reg reg' : RegisterMapping}
    (v : Nat) (h : reg' ≠ reg) : (rf.write reg v).read reg' = rf.read reg' := by
  simp [RegisterFile32Bit.write, RegisterFile32Bit.read, Function.update_noteq h]

theorem readZero_indexMut {rf rf' : RegisterFile32Bit} {reg : RegisterMapping} {v : Nat}
    (h : rf.indexMut reg v = .ok rf') :
    rf'.read RegisterMapping.Zero = rf.read RegisterMapping.Zero := by
  unfold RegisterFile32Bit.indexMut at h
  split at h
  · exact Res.noConfusion h
  · next hne =>
    injection h with h2
    subst h2
    exact rf.read_write_ne v (Ne.symm hne)

/-- C10: the register file's public `write` method does not enforce the
zero-register suppression — writing `v` to `Zero` stores `v` and a subsequent
`read Zero` returns `v`; only the `IndexMut`-based write site guards register
0 (by asserting, i.e. panicking). -/
theorem c10_register_write_no_zero_guard (rf : RegisterFile32Bit) (v : Nat) :
    ((rf.write RegisterMapping.Zero v).read RegisterMapping.Zero = v) ∧
    (rf.indexMut RegisterMapping.Zero v = .panic ("Cannot write to the zero register")) :=
  ⟨rf.read_write_same RegisterMapping.Zero v, by simp [RegisterFile32Bit.indexMut]⟩

/-- C9: a bus write whose address lies in the text range
(`entrypoint ≤ addr ≤ entrypoint + code_size`) returns an error and leaves
the bus — every byte of the text and dram regions — unchanged, for every
value and access size. -/
theorem c9_text_write_rejected_unchanged (bus : MemoryBus) (addr value : Nat) (size : Size)
    (h1 : bus.entrypoint ≤ addr) (h2 : addr ≤ bus.entrypoint + bus.code_size) :
    bus.write addr value size = (bus, .err ("Self modifying code is not supported")) := by
  simp [MemoryBus.write, h1, h2]

/-- Witness for C9 at a concrete bus and address. -/
theorem c9_text_write_witness :
    bus0.entrypoint ≤ 0x400004 ∧ 0x400004 ≤ bus0.entrypoint + bus0.code_size ∧
    bus0.write 0x400004 7 Size.Word = (bus0, .err ("Self modifying code is not supported")) :=
  ⟨by decide, by decide,
    c9_text_write_rejected_unchanged bus0 0x400004 7 Size.Word (by decide) (by decide)⟩

/-- C8: executing `fence` or `fence.i` does NOT succeed as a no-op — the
execute arms are `unimplemented!`, i.e. a panic, for every CPU state. -/
theorem c8_fence_panics (env : HostEnv) (cpu : Cpu32Bit) (rd rs1 : RegisterMapping)
    (imm : Int) :
    execute_itype_instruction env cpu .Fence rd rs1 imm =
      .panic ("not implemented: fence instruction not implemented") ∧
    execute_itype_instruction env cpu .FenceI rd rs1 imm =
      .panic ("not implemented: fence.i instruction not implemented") :=
  ⟨rfl, rfl⟩

/-- C5: a Word read at `base + size - 2` passes the region's bounds check
(which ignores the access width) and then panics on an out-of-bounds slice
index instead of returning an `Err`, even though the access violates
`a + size_of_access ≤ base + size`. -/
theorem c5_word_read_near_end_panics :
    regionC5.read (regionC5.base + regionC5.size - 2) Size.Word =
      .panic ("index out of bounds") ∧
    ¬ ((regionC5.base + regionC5.size - 2) + Size.Word.bytes ≤ regionC5.base + regionC5.size) := by
  decide

/-- C6: `jal` drops bit 20 of the decoded immediate: with `imm = 0x100000`
(only the sign bit set) the PC is left unchanged instead of moving back by
`0x100000`, and with `imm = 0x80000` the PC moves back by `0x80000` instead
of forward; the link register write itself is correct. -/
theorem c6_jal_bit20_discarded :
    Res.map (fun c => (c.pc, c.registers.read RegisterMapping.Ra))
      (cpu0.execute env0 (.UJType .Jal RegisterMapping.Ra 0x100000)) =
      .ok (0x400000, 0x400004) ∧
    toU32 (0x400000 + signExtend 21 0x100000) = 0x300000 ∧
    Res.map (fun c => c.pc)
      (cpu0.execute env0 (.UJType .Jal RegisterMapping.Ra 0x80000)) = .ok 0x380000 ∧
    toU32 (0x400000 + signExtend 21 0x80000) = 0x480000 := by
  decide

/-- C2: the `print_int` syscall (`a7 = 1`) renders `a0` as an UNSIGNED u32:
with `a0 = 0xFFFFFFFF` (i.e. `-1` as an i32) it appends `"4294967295"` to the
output buffer, not `"-1"`. -/
theorem c2_print_int_unsigned_rendering :
    Res.map (fun p => p.2.2) (process_ecall env0 regsC2 bus0 ("")) = .ok ("4294967295") ∧
    toI32 (regsC2.read RegisterMapping.A0) = -1 ∧
    ("4294967295" : String) ≠ "-1" := by
  decide

/-- Counterexample to C4: fetching at the unaligned PC `0x400001` (inside the
text bounds) succeeds — the word is read and decoded — rather than failing
with a misalignment error. -/
theorem c4_unaligned_fetch_succeeds :
    (0x400001 : Nat) % 4 ≠ 0 ∧
    fetch_and_decode bus0 0x400001 =
      .ok (.IType .Addi RegisterMapping.Zero 0 RegisterMapping.Zero 0) := by
  decide

/-- C4 (amended): fetch checks only that the wrapping distance from the
entrypoint is below `code_size`; within those bounds it always proceeds to
read and decode the word — no alignment check exists on the fetch path. -/
theorem c4_fetch_no_alignment_check (bus : MemoryBus) (pc : Nat)
    (h : wrappingSub pc bus.entrypoint < bus.code_size) :
    fetch_and_decode bus pc = (bus.read pc Size.Word).bind from_machine_code := by
  unfold fetch_and_decode
  rw [if_neg (Nat.not_le.mpr h)]

/-- Witness for C4 at the concrete unaligned PC `0x400001`. -/
theorem c4_fetch_witness :
    wrappingSub 0x400001 bus0.entrypoint < bus0.code_size ∧
    fetch_and_decode bus0 0x400001 = (bus0.read 0x400001 Size.Word).bind from_machine_code :=
  ⟨by decide, c4_fetch_no_alignment_check bus0 0x400001 (by decide)⟩

/-- Counterexample to C7: `sltiu` with immediate field `0xFFF` compares
against `0x00000FFF`, not `0xFFFFFFFF`: with `rs1 = 0x1000` the result is 0,
although `0x1000 < 0xFFFFFFFF` holds unsigned. -/
theorem c7_sltiu_counterexample :
    cpuC7.registers.read RegisterMapping.A1 = 0x1000 ∧
    (0x1000 : Nat) < 0xFFFFFFFF ∧
    Res.map (fun c => c.registers.read RegisterMapping.A0)
      ((from_machine_code 0xFFF5B513).bind (cpuC7.execute env0)) = .ok 0 := by
  decide

/-- C7 (amended): decode stores the `sltiu` immediate zero-extended (for the
word with immediate field `0xFFF` the decoded immediate is `0xFFF`), and
executing `sltiu` sets `rd` (when writable) to 1 exactly when the unsigned
value of `rs1` is below the ZERO-extended immediate. -/
theorem c7_sltiu_zero_extended_imm :
    (from_machine_code 0xFFF5B513 =
      .ok (.IType .Sltiu RegisterMapping.A0 3 RegisterMapping.A1 (0xFFF : Int))) ∧
    (∀ (env : HostEnv) (cpu : Cpu32Bit) (rd rs1 : RegisterMapping) (imm : Int),
      rd ≠ RegisterMapping.Zero →
      execute_itype_instruction env cpu .Sltiu rd rs1 imm =
        .ok { cpu with registers :=
          cpu.registers.write rd (if cpu.registers.read rs1 < toU32 imm then 1 else 0) }) := by
  constructor
  · decide
  · intro env cpu rd rs1 imm hrd
    simp [execute_itype_instruction, RegisterFile32Bit.indexMut, hrd, Res.map]

/-- Witness for C7 at the concrete CPU `cpuC7`. -/
theorem c7_sltiu_witness :
    execute_itype_instruction env0 cpuC7 .Sltiu RegisterMapping.A0 RegisterMapping.A1 4095 =
      .ok { cpuC7 with registers :=
        (cpuC7.registers.write RegisterMapping.A0
          (if cpuC7.registers.read RegisterMapping.A1 < toU32 4095 then 1 else 0)) } :=
  c7_sltiu_zero_extended_imm.2 env0 cpuC7 RegisterMapping.A0 RegisterMapping.A1 4095 (by decide)

theorem toI32_eq_zero_iff {n : Nat} (h : n < 2 ^ 32) : toI32 n = 0 ↔ n = 0 := by
  unfold toI32
  split <;> omega

theorem toI32_eq_negOne_iff {n : Nat} (h : n < 2 ^ 32) : toI32 n = -1 ↔ n = 0xFFFFFFFF := by
  unfold toI32
  split <;> omega

theorem toI32_eq_min_iff {n : Nat} (h : n < 2 ^ 32) : toI32 n = -(2 ^ 31) ↔ n = 0x80000000 := by
  unfold toI32
  split <;> omega

/-- C3 (amended): `divu`/`remu` error exactly when `rs2` holds 0; the signed
`div`/`rem` error exactly when `rs2` holds 0 OR when `rs1 = i32::MIN` and
`rs2 = -1` (the `checked_div`/`checked_rem` overflow case) — contrary to the
original claim, that pair also fails; in every other case the truncated
quotient/remainder is written to `rd` (for a writable `rd`). -/
theorem c3_divrem_error_characterization (regs : RegisterFile32Bit)
    (rd rs1 rs2 : RegisterMapping) (hrd : rd ≠ RegisterMapping.Zero)
    (ha : regs.read rs1 < 2 ^ 32) (hb : regs.read rs2 < 2 ^ 32) :
    (execute_rtype_instruction regs .Divu rd rs1 rs2 =
      if regs.read rs2 = 0 then .err ("Division by zero")
      else .ok (regs.write rd (regs.read rs1 / regs.read rs2))) ∧
    (execute_rtype_instruction regs .Remu rd rs1 rs2 =
      if regs.read rs2 = 0 then .err ("Division by zero")
      else .ok (regs.write rd (regs.read rs1 % regs.read rs2))) ∧
    (execute_rtype_instruction regs .Div rd rs1 rs2 =
      if regs.read rs2 = 0 ∨ (regs.read rs1 = 0x80000000 ∧ regs.read rs2 = 0xFFFFFFFF) then
        .err ("Division by zero")
      else .ok (regs.write rd (toU32 (Int.tdiv (toI32 (regs.read rs1)) (toI32 (regs.read rs2)))))) ∧
    (execute_rtype_instruction regs .Rem rd rs1 rs2 =
      if regs.read rs2 = 0 ∨ (regs.read rs1 = 0x80000000 ∧ regs.read rs2 = 0xFFFFFFFF) then
        .err ("Division by zero")
      else .ok (regs.write rd (toU32 (Int.tmod (toI32 (regs.read rs1)) (toI32 (regs.read rs2)))))) := by
  refine ⟨?_, ?_, ?_, ?_⟩
  · simp only [execute_rtype_instruction, u32CheckedDiv]
    by_cases h0 : regs.read rs2 = 0
    · simp [h0]
    · simp [h0, RegisterFile32Bit.indexMut, hrd]
  · simp only [execute_rtype_instruction, u32CheckedRem]
    by_cases h0 : regs.read rs2 = 0
    · simp [h0]
    · simp [h0, RegisterFile32Bit.indexMut, hrd]
  · simp only [execute_rtype_instruction, i32CheckedDiv,
      toI32_eq_zero_iff hb, toI32_eq_min_iff ha, toI32_eq_negOne_iff hb]
    by_cases h0 : regs.read rs2 = 0 ∨
        (regs.read rs1 = 0x80000000 ∧ regs.read rs2 = 0xFFFFFFFF)
    · simp [h0]
    · simp [h0, RegisterFile32Bit.indexMut, hrd]
  · simp only [execute_rtype_instruction, i32CheckedRem,
      toI32_eq_zero_iff hb, toI32_eq_min_iff ha, toI32_eq_negOne_iff hb]
    by_cases h0 : regs.read rs2 = 0 ∨
        (regs.read rs1 = 0x80000000 ∧ regs.read rs2 = 0xFFFFFFFF)
    · simp [h0]
    · simp [h0, RegisterFile32Bit.indexMut, hrd]

/-- Counterexample to C3: with `rs1 = 0x80000000` (`i32::MIN`) and
`rs2 = 0xFFFFFFFF` (`-1`), a NONZERO divisor, both `div` and `rem` return the
"Division by zero" error instead of succeeding. -/
theorem c3_div_min_by_neg_one_errors :
    regsC3.read RegisterMapping.A1 ≠ 0 ∧
    execute_rtype_instruction regsC3 .Div RegisterMapping.A2 RegisterMapping.A0
      RegisterMapping.A1 = .err ("Division by zero") ∧
    execute_rtype_instruction regsC3 .Rem RegisterMapping.A2 RegisterMapping.A0
      RegisterMapping.A1 = .err ("Division by zero") :=
  ⟨by decide, rfl, rfl⟩

/-- Witness for C3 at `a0 = 7`, `a1 = 2`. -/
theorem c3_divrem_witness :
    (execute_rtype_instruction regsC3w .Divu RegisterMapping.A2 RegisterMapping.A0
        RegisterMapping.A1 =
      if regsC3w.read RegisterMapping.A1 = 0 then .err ("Division by zero")
      else .ok (regsC3w.write RegisterMapping.A2
        (regsC3w.read RegisterMapping.A0 / regsC3w.read RegisterMapping.A1))) ∧
    (execute_rtype_instruction regsC3w .Remu RegisterMapping.A2 RegisterMapping.A0
        RegisterMapping.A1 =
      if regsC3w.read RegisterMapping.A1 = 0 then .err ("Division by zero")
      else .ok (regsC3w.write RegisterMapping.A2
        (regsC3w.read RegisterMapping.A0 % regsC3w.read RegisterMapping.A1))) ∧
    (execute_rtype_instruction regsC3w .Div RegisterMapping.A2 RegisterMapping.A0
        RegisterMapping.A1 =
      if regsC3w.read RegisterMapping.A1 = 0 ∨
          (regsC3w.read RegisterMapping.A0 = 0x80000000 ∧
            regsC3w.read RegisterMapping.A1 = 0xFFFFFFFF) then
        .err ("Division by zero")
      else .ok (regsC3w.write RegisterMapping.A2
        (toU32 (Int.tdiv (toI32 (regsC3w.read RegisterMapping.A0))
          (toI32 (regsC3w.read RegisterMapping.A1)))))) ∧
    (execute_rtype_instruction regsC3w .Rem RegisterMapping.A2 RegisterMapping.A0
        RegisterMapping.A1 =
      if regsC3w.read RegisterMapping.A1 = 0 ∨
          (regsC3w.read RegisterMapping.A0 = 0x80000000 ∧
            regsC3w.read RegisterMapping.A1 = 0xFFFFFFFF) then
        .err ("Division by zero")
      else .ok (regsC3w.write RegisterMapping.A2
        (toU32 (Int.tmod (toI32 (regsC3w.read RegisterMapping.A0))
          (toI32 (regsC3w.read RegisterMapping.A1)))))) :=
  c3_divrem_error_characterization regsC3w RegisterMapping.A2 RegisterMapping.A0
    RegisterMapping.A1 (by decide) (by decide) (by decide)

theorem readZero_rtype {regs regs' : RegisterFile32Bit} {op : RTypeOperation}
    {rd rs1 rs2 : RegisterMapping}
    (h : execute_rtype_instruction regs op rd rs1 rs2 = .ok regs') :
    regs'.read RegisterMapping.Zero = regs.read RegisterMapping.Zero := by
  cases op <;> simp only [execute_rtype_instruction] at h <;>
    first
      | exact readZero_indexMut h
      | (split at h <;> first | exact Res.noConfusion h | exact readZero_indexMut h)

theorem readZero_ecall {env : HostEnv} {regs : RegisterFile32Bit} {memory : MemoryBus}
    {output : String} {t : RegisterFile32Bit × MemoryBus × String}
    (h : process_ecall env regs memory output = .ok t) :
    t.1.read RegisterMapping.Zero = regs.read RegisterMapping.Zero := by
  unfold process_ecall at h
  split at h
  -- PrintInt
  · injection h with h2; subst h2; rfl
  -- PrintString
  · rw [Res.bind_eq_ok_iff] at h
    obtain ⟨s, -, h2⟩ := h
    injection h2 with h3; subst h3; rfl
  -- ReadInt
  · split at h
    · exact Res.noConfusion h
    · rw [Res.map_eq_ok_iff] at h
      obtain ⟨r, hIdx, ht⟩ := h
      subst ht
      exact readZero_indexMut hIdx
  -- ReadString
  · rw [Res.bind_eq_ok_iff] at h
    obtain ⟨p, -, h2⟩ := h
    split at h2 <;> first
      | exact Res.noConfusion h2
      | (injection h2 with h3; subst h3; rfl)
  -- Exit
  · exact Res.noConfusion h
  -- PrintChar
  · injection h with h2; subst h2; rfl
  -- ReadChar
  · split at h
    · exact Res.noConfusion h
    · rw [Res.map_eq_ok_iff] at h
      obtain ⟨r, hIdx, ht⟩ := h
      subst ht
      exact readZero_indexMut hIdx
  -- Time
  · rw [Res.bind_eq_ok_iff] at h
    obtain ⟨r1, hIdx1, h2⟩ := h
    rw [Res.map_eq_ok_iff] at h2
    obtain ⟨r2, hIdx2, ht⟩ := h2
    subst ht
    exact (readZero_indexMut hIdx2).trans (readZero_indexMut hIdx1)
  -- Sleep
  · injection h with h2; subst h2; rfl
  -- PrintIntHex
  · injection h with h2; subst h2; rfl
  -- PrintIntBinary
  · injection h with h2; subst h2; rfl
  -- PrintIntUnsigned
  · injection h with h2; subst h2; rfl
  -- Exit2
  · exact Res.noConfusion h
  -- UnSupported
  · exact Res.noConfusion h

theorem readZero_itype {env : HostEnv} {cpu : Cpu32Bit} {op : ITypeOperation}
    {rd rs1 : RegisterMapping} {imm : Int} {c' : Cpu32Bit}
    (h : execute_itype_instruction env cpu op rd rs1 imm = .ok c') :
    c'.registers.read RegisterMapping.Zero = cpu.registers.read RegisterMapping.Zero := by
  cases op
  case Jalr =>
    simp only [execute_itype_instruction] at h
    injection h with h2
    subst h2
    dsimp only
    split
    · next hrd => exact cpu.registers.read_write_ne _ (Ne.symm hrd)
    · rfl
  all_goals simp only [execute_itype_instruction] at h
  all_goals
    first
      | exact Res.noConfusion h
      | (injection h with h2; subst h2; rfl)
      | (rw [Res.map_eq_ok_iff] at h; obtain ⟨r, hIdx, hc⟩ := h; subst hc;
          first
            | exact readZero_indexMut hIdx
            | exact readZero_ecall hIdx)
      | (rw [Res.bind_eq_ok_iff] at h; obtain ⟨v, -, h2⟩ := h;
          rw [Res.map_eq_ok_iff] at h2; obtain ⟨r, hIdx, hc⟩ := h2; subst hc;
          exact readZero_indexMut hIdx)

/-- C1 (amended): for every instruction whose execution COMPLETES (returns
`Ok`), register 0 still reads 0 afterwards; but a write targeting register 0
through the `IndexMut` site is NOT silently discarded — it asserts
(see the counterexample: `addi` with `rd = x0` panics). -/
theorem c1_zero_register_after_ok_step (env : HostEnv) (cpu : Cpu32Bit)
    (instruction : Rv32imInstruction) (cpu' : Cpu32Bit)
    (h0 : cpu.registers.read RegisterMapping.Zero = 0)
    (h : cpu.execute env instruction = .ok cpu') :
    cpu'.registers.read RegisterMapping.Zero = 0 := by
  cases instruction
  case IType operation rd funct3 rs1 imm =>
    simp only [Cpu32Bit.execute] at h
    rw [Res.bind_eq_ok_iff] at h
    obtain ⟨c, hI, h2⟩ := h
    have hz := readZero_itype hI
    split at h2 <;> (injection h2 with h3; subst h3) <;> exact hz.trans h0
  case RType operation rd funct3 rs1 rs2 funct7 =>
    simp only [Cpu32Bit.execute] at h
    rw [Res.map_eq_ok_iff] at h
    obtain ⟨r, hR, hc⟩ := h
    subst hc
    exact (readZero_rtype hR).trans h0
  case SType operation funct3 rs1 rs2 imm =>
    simp only [Cpu32Bit.execute] at h
    rw [Res.map_eq_ok_iff] at h
    obtain ⟨m, -, hc⟩ := h
    subst hc
    exact h0
  case SBType operation funct3 rs1 rs2 imm =>
    simp only [Cpu32Bit.execute] at h
    injection h with h2
    subst h2
    exact h0
  case UJType operation rd imm =>
    simp only [Cpu32Bit.execute] at h
    injection h with h2
    subst h2
    cases operation
    dsimp only [execute_ujtype_instruction]
    split
    · next hrd => exact (cpu.registers.read_write_ne _ (Ne.symm hrd)).trans h0
    · exact h0
  case UType operation rd imm =>
    simp only [Cpu32Bit.execute] at h
    rw [Res.map_eq_ok_iff] at h
    obtain ⟨r, hU, hc⟩ := h
    subst hc
    cases operation <;> simp only [execute_utype_instruction] at hU <;>
      exact (readZero_indexMut hU).trans h0

/-- Counterexample to C1: a step whose instruction writes register 0 through
the `IndexMut` site does not succeed with the write discarded — executing
`addi x0, x0, 1` panics on the zero-register assertion. -/
theorem c1_addi_x0_panics :
    cpu0.execute env0 (.IType .Addi RegisterMapping.Zero 0 RegisterMapping.Zero 1) =
      .panic ("Cannot write to the zero register") := rfl

/-- Witness for C1: a concrete completed step (a taken `beq`) preserves
`regs[0] = 0`. -/
theorem c1_zero_register_witness :
    cpu0.registers.read RegisterMapping.Zero = 0 ∧
    cpuC1w.registers.read RegisterMapping.Zero = 0 :=
  ⟨by decide,
    c1_zero_register_after_ok_step env0 cpu0 instrC1w cpuC1w (by decide) (by rfl)⟩
